import Mathlib

/-!
Verification of the QKD intrusion-detection core against its source.

Shallow embedding of the repository:
  inference/ids_engine.py      (dual-model cascade verdict logic)
  streams/circular_buffer.py   (ring buffer and fingerprint extraction)
  streams/quantum_producer.py  (event stream signature)
  gui/worker_thread.py         (stream call site and injection control)
  Simulation/core_real.py      (density-matrix kernel)
  Simulation/components.py     (APD detector state machine)

Machine floats are modelled as exact rationals; a Gaussian draw
normal(mu, sigma) is modelled as mu + sigma * g where g is the supplied
standard-normal sample; uniform rolls are supplied rationals compared
against the same thresholds as the source.
-/

namespace QKD

/-! ### inference/ids_engine.py -/

/-- Abstraction of the two opaque trained model artifacts at one call:
svmResult is the value of svm.predict(X)[0] (+1 in-distribution, -1 anomaly),
classes is rf.classes_, proba is rf.predict_proba(X)[0]. -/
structure ModelOutputs where
  svmResult : Int
  classes : List String
  proba : List ℚ

/-- Inner loop of np.argmax: first index attaining the running maximum. -/
def argmaxAux : List ℚ → Nat → ℚ → Nat → Nat
  | [], _, _, best => best
  | x :: xs, i, bestV, best =>
      if bestV < x then argmaxAux xs (i + 1) x i else argmaxAux xs (i + 1) bestV best

/-- np.argmax over a probability vector: index of the first maximum (0 on empty). -/
def argmaxList : List ℚ → Nat
  | [] => 0
  | x :: xs => argmaxAux xs 1 x 0

/-- np.ndarray.max over a probability vector (0 on empty; the source never
calls it on an empty vector). -/
def listMax : List ℚ → ℚ
  | [] => 0
  | x :: xs => xs.foldl max x

/-- Step 1 of IDSEngine.infer: svm_anomaly = (svm_result == -1). -/
def svmAnomaly (m : ModelOutputs) : Bool := m.svmResult == -1

/-- Step 2 of IDSEngine.infer: rf_pred = str(classes_[argmax proba]). -/
def rfPred (m : ModelOutputs) : String := m.classes.getD (argmaxList m.proba) ""

/-- Step 2 of IDSEngine.infer: rf_conf = proba.max(). -/
def rfConf (m : ModelOutputs) : ℚ := listMax m.proba

/-- Verdict string of the zero-day branch of IDSEngine.infer. -/
def zeroDayVerdict : String := "POTENTIAL ZERO-DAY — ESCALATE TO OPERATOR"

/-- Structured output of IDSEngine.infer (dataclass InferenceResult). -/
structure InferenceResult where
  verdict : String
  rf_prediction : String
  rf_confidence : ℚ
  class_probs : List (String × ℚ)
  svm_anomaly : Bool
  flagged : Bool

/-- IDSEngine.infer, step 3 (combined verdict) applied to the model outputs,
with the engine confidence threshold passed explicitly. -/
def infer (confidence_threshold : ℚ) (m : ModelOutputs) : InferenceResult :=
  if svmAnomaly m ∧ rfPred m = "normal" ∧ rfConf m < confidence_threshold then
    ⟨zeroDayVerdict, rfPred m, rfConf m, m.classes.zip m.proba, svmAnomaly m,
      true⟩
  else if rfConf m < confidence_threshold then
    ⟨"UNCERTAIN (" ++ rfPred m ++ ")", rfPred m, rfConf m,
      m.classes.zip m.proba, svmAnomaly m, true⟩
  else if rfPred m ≠ "normal" then
    ⟨rfPred m, rfPred m, rfConf m, m.classes.zip m.proba, svmAnomaly m, true⟩
  else
    ⟨"normal", rfPred m, rfConf m, m.classes.zip m.proba, svmAnomaly m, false⟩

/-! ### streams/circular_buffer.py -/

/-- Raw QKD event dict pushed into the ring buffer. -/
structure Event where
  alice_bit : Nat
  alice_basis : Nat
  bob_basis : Nat
  bob_bit : Nat
  detector_voltage : ℚ
  timing_jitter : ℚ
deriving DecidableEq

/-- Sifting mask of one event: alice_basis == bob_basis. -/
def eventMatch (e : Event) : Bool := e.alice_basis == e.bob_basis

/-- Error mask of one event: (alice_bit != bob_bit) and basis-matched. -/
def eventError (e : Event) : Bool := (e.alice_bit != e.bob_bit) && eventMatch e

/-- Rectilinear mask of one event: alice_basis == 0. -/
def eventRect (e : Event) : Bool := e.alice_basis == 0

/-- Diagonal mask of one event: alice_basis == 1. -/
def eventDiag (e : Event) : Bool := e.alice_basis == 1

/-- The six-dimensional fingerprint row produced by extract_features. -/
structure Fingerprint where
  qber_overall : ℚ
  qber_rectilinear : ℚ
  qber_diagonal : ℚ
  detector_voltage : ℚ
  timing_jitter : ℚ
  photon_count_rate : ℚ
deriving DecidableEq

/-- Body of EventBuffer.extract_features on the current window contents
(the list of buffered events, oldest first). -/
def extractFeatures (events : List Event) : Fingerprint :=
  let n : Nat := events.length
  let n_sifted : Nat := events.countP (fun e => eventMatch e)
  let n_err : Nat := events.countP (fun e => eventError e)
  let n_err_r : Nat := events.countP (fun e => eventError e && eventRect e)
  let n_err_d : Nat := events.countP (fun e => eventError e && eventDiag e)
  let n_count_r : Nat := events.countP (fun e => eventMatch e && eventRect e)
  let n_count_d : Nat := events.countP (fun e => eventMatch e && eventDiag e)
  let qber_o : ℚ := if 0 < n_sifted then (n_err : ℚ) / (n_sifted : ℚ) else 0
  let qber_r : ℚ := if 0 < n_count_r then (n_err_r : ℚ) / (n_count_r : ℚ) else 0
  let qber_d : ℚ := if 0 < n_count_d then (n_err_d : ℚ) / (n_count_d : ℚ) else 0
  let count_rate : ℚ := (n_sifted : ℚ) / (n : ℚ)
  ⟨qber_o, qber_r, qber_d,
   (events.map Event.detector_voltage).sum / (n : ℚ),
   (events.map Event.timing_jitter).sum / (n : ℚ),
   count_rate⟩

/-- Ring buffer of raw events: collections.deque with a maxlen bound,
oldest element first. -/
structure EventBuffer where
  maxlen : Nat
  buf : List Event
deriving DecidableEq

/-- EventBuffer constructor: an empty deque with the given maxlen. -/
def EventBuffer.init (maxlen : Nat) : EventBuffer := ⟨maxlen, []⟩

/-- EventBuffer.push: deque append, evicting from the left down to maxlen. -/
def EventBuffer.push (b : EventBuffer) (e : Event) : EventBuffer :=
  let l := b.buf ++ [e]
  ⟨b.maxlen, l.drop (l.length - b.maxlen)⟩

/-- Fold EventBuffer.push over a list of arriving events. -/
def EventBuffer.pushAll (b : EventBuffer) (es : List Event) : EventBuffer :=
  es.foldl EventBuffer.push b

/-- EventBuffer.is_ready: the buffer holds exactly maxlen events. -/
def EventBuffer.is_ready (b : EventBuffer) : Bool := b.buf.length == b.maxlen

/-- EventBuffer.fill_level: current number of stored events. -/
def EventBuffer.fill_level (b : EventBuffer) : Nat := b.buf.length

/-- EventBuffer.extract_features: None until the buffer is full, then the
fingerprint of the current window. -/
def EventBuffer.extract_features (b : EventBuffer) : Option Fingerprint :=
  if b.is_ready then some (extractFeatures b.buf) else none

/-- Modelled from the spec: the detection rate the spec attributes to the
sixth fingerprint component, namely the fraction of simulation ticks since
the last full window that produced a detected Event. A tick is modelled as
Option Event: some e when the tick produced the detected event e, none when
it produced no event. Stated only to compare against extractFeatures. -/
def specDetectionRate (ticks : List (Option Event)) : ℚ :=
  ((ticks.countP (fun t => t.isSome)) : ℚ) / (ticks.length : ℚ)

/-! ### streams/quantum_producer.py and gui/worker_thread.py -/

/-- Keyword parameters accepted by quantum_event_stream as defined in
streams/quantum_producer.py (lines 35 to 39). -/
def quantumEventStreamParams : List String :=
  ["attack_mode", "intensity_mode", "noise_p"]

/-- Keyword arguments passed to quantum_event_stream by
IDSWorker.async_pipeline in gui/worker_thread.py (lines 123 to 128). -/
def workerStreamCallKwargs : List String :=
  ["attack_mode", "intensity_mode", "noise_p", "state_controller"]

/-! ### Simulation/core_real.py -/

/-- Complex number with rational real and imaginary parts, modelling the
complex machine floats of the density-matrix kernel. -/
structure CQ where
  re : ℚ
  im : ℚ
deriving DecidableEq

instance : Add CQ := ⟨fun x y => ⟨x.re + y.re, x.im + y.im⟩⟩

instance : Mul CQ := ⟨fun x y => ⟨x.re * y.re - x.im * y.im, x.re * y.im + x.im * y.re⟩⟩

/-- Complex multiplicative inverse (0 maps to 0, a value the kernel never
divides by on the states it builds). -/
def CQ.inv (z : CQ) : CQ := ⟨z.re / (z.re ^ 2 + z.im ^ 2), -z.im / (z.re ^ 2 + z.im ^ 2)⟩

/-- A 2 by 2 complex matrix: rho, a projector, or a gate of the kernel. -/
structure Mat2 where
  a : CQ
  b : CQ
  c : CQ
  d : CQ
deriving DecidableEq

/-- Matrix product of 2 by 2 complex matrices. -/
def Mat2.mul (M N : Mat2) : Mat2 :=
  ⟨M.a * N.a + M.b * N.c, M.a * N.b + M.b * N.d,
   M.c * N.a + M.d * N.c, M.c * N.b + M.d * N.d⟩

/-- Matrix trace. -/
def Mat2.trace (M : Mat2) : CQ := M.a + M.d

/-- Scaling of a matrix by a real scalar. -/
def Mat2.smul (s : ℚ) (M : Mat2) : Mat2 :=
  ⟨⟨s * M.a.re, s * M.a.im⟩, ⟨s * M.b.re, s * M.b.im⟩,
   ⟨s * M.c.re, s * M.c.im⟩, ⟨s * M.d.re, s * M.d.im⟩⟩

/-- Scaling of a matrix by a complex scalar. -/
def Mat2.csmul (s : CQ) (M : Mat2) : Mat2 :=
  ⟨s * M.a, s * M.b, s * M.c, s * M.d⟩

/-- QState constructor body: enforce unit trace by dividing rho by its trace. -/
def mkQState (m : Mat2) : Mat2 := Mat2.csmul (CQ.inv m.trace) m

/-- Rational complex literal with zero imaginary part. -/
def cq (x : ℚ) : CQ := ⟨x, 0⟩

/-- Outer product |H><H| = [[1,0],[0,0]]. -/
def ketH : Mat2 := ⟨cq 1, cq 0, cq 0, cq 0⟩

/-- Outer product |V><V| = [[0,0],[0,1]]. -/
def ketV : Mat2 := ⟨cq 0, cq 0, cq 0, cq 1⟩

/-- Outer product |D><D| = one half times [[1,1],[1,1]]. -/
def ketD : Mat2 := ⟨cq (1/2), cq (1/2), cq (1/2), cq (1/2)⟩

/-- Outer product |A><A| = one half times [[1,-1],[-1,1]]. -/
def ketA : Mat2 := ⟨cq (1/2), cq (-(1/2)), cq (-(1/2)), cq (1/2)⟩

/-- QState.from_label: the pure state for a polarization label, or the
unknown-label ValueError for any other string. -/
def fromLabel (label : String) : Except String Mat2 :=
  if label = "H" then .ok (mkQState ketH)
  else if label = "V" then .ok (mkQState ketV)
  else if label = "D" then .ok (mkQState ketD)
  else if label = "A" then .ok (mkQState ketA)
  else .error ("Unknown label " ++ label)

/-- QState.measure: select the projector pair for the basis (raising the
unknown-basis ValueError otherwise), normalize the Born probabilities, draw
the outcome with the uniform sample u, and collapse by the Lüders rule.
Returns the outcome (or the error) together with the state after the call:
on an error the state is returned untouched, since the source raises before
any mutation of rho. -/
def qmeasure (rho : Mat2) (basis : String) (u : ℚ) : Except String Nat × Mat2 :=
  let projectors : Option (Mat2 × Mat2) :=
    if basis = "rectilinear" then some (ketH, ketV)
    else if basis = "diagonal" then some (ketD, ketA)
    else none
  match projectors with
  | none => (.error ("Unknown basis " ++ basis), rho)
  | some (P0, P1) =>
    let prob0 : ℚ := ((Mat2.mul P0 rho).trace).re
    let prob1 : ℚ := ((Mat2.mul P1 rho).trace).re
    let total : ℚ := prob0 + prob1
    let p0 : ℚ := prob0 / total
    let result : Nat := if u < p0 then 0 else 1
    let projector : Mat2 := if result = 0 then P0 else P1
    let norm : ℚ := ((Mat2.mul projector rho).trace).re
    let rho2 : Mat2 :=
      if (1 : ℚ) / 10 ^ 15 < norm then
        Mat2.smul (1 / norm) (Mat2.mul (Mat2.mul projector rho) projector)
      else projector
    (.ok result, rho2)

/-! ### Simulation/components.py -/

/-- CONSTANTS of the APD model: dead time in seconds. -/
def dead_time : ℚ := 10 / 10 ^ 6

/-- CONSTANTS of the APD model: dark count probability per gate. -/
def dark_count_prob : ℚ := 1 / 10 ^ 5

/-- CONSTANTS of the APD model: time-shift attack jitter mean in ns. -/
def jitter_attack_ns : ℚ := 50 / 1000

/-- Mutable state of APD_Detector: construction parameters plus the fields
mutated by detect. -/
structure DetectorState where
  base_efficiency : ℚ
  saturation_limit : ℚ
  attack_mode : String
  last_click_time : ℚ
  current_voltage : ℚ
  current_jitter : ℚ
deriving DecidableEq

/-- APD_Detector constructor with the default efficiency of 0.25. -/
def detectorInit : DetectorState := ⟨1/4, 10 ^ 7, "none", -1, 0, 0⟩

/-- Random draws consumed by one APD_Detector.detect call: darkRoll and
flipRoll and fireRoll are uniform samples in [0,1); gV and gJ are the
standard-normal samples behind the voltage and jitter draws of whichever
branch runs; darkBit is the dark-count coin; measU drives qmeasure. -/
structure DetectRand where
  darkRoll : ℚ
  gV : ℚ
  gJ : ℚ
  darkBit : Bool
  measU : ℚ
  flipRoll : ℚ
  fireRoll : ℚ
deriving DecidableEq

/-- APD_Detector.detect: dead-time gate, dark-count roll, kernel measurement
with the rare bit flip, then the response branch in source order: saturation
(linear mode), time-shift, zero-day, normal Geiger mode. Returns the
possibly-absent outcome together with the detector state after the call; a
kernel error (invalid basis) propagates as in the source. -/
def apdDetect (s : DetectorState) (rho : Mat2) (incident_flux : ℚ)
    (basis : String) (current_time : ℚ) (r : DetectRand) :
    Except String (Option Nat × DetectorState) :=
  if current_time - s.last_click_time < dead_time then
    .ok (none, s)
  else if r.darkRoll < dark_count_prob then
    .ok (some (if r.darkBit then 1 else 0),
      { s with current_voltage := 33/10 + (2/10) * r.gV,
               current_jitter := 12/10 + (5/10) * r.gJ,
               last_click_time := current_time })
  else
    match (qmeasure rho basis r.measU).1 with
    | .error e => .error e
    | .ok m0 =>
      let measurement : Nat := if r.flipRoll < 5/1000 then 1 - m0 else m0
      if s.saturation_limit < incident_flux then
        .ok (some measurement,
          { s with current_voltage := 9 + (5/100) * r.gV,
                   current_jitter := 1/10 + (1/100) * r.gJ,
                   last_click_time := current_time })
      else if s.attack_mode = "timeshift" then
        let s2 := { s with current_voltage := 33/10 + (2/10) * r.gV,
                           current_jitter := jitter_attack_ns + (1/100) * r.gJ }
        if r.fireRoll < 15/100 then
          .ok (some measurement, { s2 with last_click_time := current_time })
        else .ok (none, s2)
      else if s.attack_mode = "zeroday" then
        let s2 := { s with current_voltage := 65/10 + (1/10) * r.gV,
                           current_jitter := 28/10 + (1/10) * r.gJ }
        if r.fireRoll < 25/100 then
          .ok (some measurement, { s2 with last_click_time := current_time })
        else .ok (none, s2)
      else
        let s2 := { s with current_voltage := 33/10 + (2/10) * r.gV,
                           current_jitter := 12/10 + (2/10) * r.gJ }
        if r.fireRoll < s.base_efficiency then
          .ok (some measurement, { s2 with last_click_time := current_time })
        else .ok (none, s2)

/-! ### Theorems -/

/-- C3: the injection-applying stream does not exist in the source. The
worker passes the TransientInjection block (state_controller) to
quantum_event_stream, but quantum_event_stream accepts no such keyword
parameter, so the call raises TypeError and no per-tick substitution or
countdown decrement ever runs. -/
theorem c3_stream_rejects_injection_kwarg :
    "state_controller" ∈ workerStreamCallKwargs ∧
    "state_controller" ∉ quantumEventStreamParams := by
  decide

/-- C4: whenever the elapsed time since the last click is strictly below the
dead time, detect returns NoEvent with the detector state unchanged,
irrespective of the dark-count roll, the attack mode, the incident flux, the
basis and the input state. -/
theorem c4_dead_time_gate (s : DetectorState) (rho : Mat2) (flux : ℚ)
    (basis : String) (t : ℚ) (r : DetectRand)
    (h : t - s.last_click_time < dead_time) :
    apdDetect s rho flux basis t r = .ok (none, s) := by
  unfold apdDetect
  rw [if_pos h]

/-- Witness for C4 at a concrete blocked call: the detector clicked at time 0
and is probed at 5 microseconds with a dark roll that would otherwise fire. -/
theorem c4_dead_time_gate_witness :
    apdDetect ⟨1/4, 10 ^ 7, "timeshift", 0, 33/10, 6/5⟩ ketH (10 ^ 9)
        "rectilinear" (5 / 10 ^ 6) ⟨0, 1, 1, true, 0, 0, 0⟩
      = .ok (none, ⟨1/4, 10 ^ 7, "timeshift", 0, 33/10, 6/5⟩) :=
  c4_dead_time_gate ⟨1/4, 10 ^ 7, "timeshift", 0, 33/10, 6/5⟩ ketH (10 ^ 9)
    "rectilinear" (5 / 10 ^ 6) ⟨0, 1, 1, true, 0, 0, 0⟩ (by norm_num [dead_time])

/-- Valid bases always produce a measurement outcome from the kernel. -/
theorem qmeasure_ok (rho : Mat2) (basis : String) (u : ℚ)
    (hb : basis = "rectilinear" ∨ basis = "diagonal") :
    ∃ m, (qmeasure rho basis u).1 = .ok m := by
  rcases hb with h | h <;> subst h <;> exact ⟨_, rfl⟩

/-- C5: a call that passes the dead-time gate and the dark-count roll, with
incident flux above the saturation limit, always fires: it returns the
measured (possibly flipped) bit, sets linear-mode telemetry with voltage
9 + 0.05 g and jitter 0.1 + 0.01 g around 9.0 V and 0.1 ns, and updates the
last-fire timestamp — for every attack-mode tag, so saturation pre-empts the
time-shift, zero-day and normal response branches. -/
theorem c5_saturation_preempts (s : DetectorState) (rho : Mat2) (flux : ℚ)
    (basis : String) (t : ℚ) (r : DetectRand)
    (hgate : ¬ t - s.last_click_time < dead_time)
    (hdark : ¬ r.darkRoll < dark_count_prob)
    (hb : basis = "rectilinear" ∨ basis = "diagonal")
    (hsat : s.saturation_limit < flux) :
    ∃ m, (qmeasure rho basis r.measU).1 = .ok m ∧
      apdDetect s rho flux basis t r
        = .ok (some (if r.flipRoll < 5/1000 then 1 - m else m),
            { s with current_voltage := 9 + (5/100) * r.gV,
                     current_jitter := 1/10 + (1/100) * r.gJ,
                     last_click_time := t }) := by
  obtain ⟨m, hm⟩ := qmeasure_ok rho basis r.measU hb
  refine ⟨m, hm, ?_⟩
  unfold apdDetect
  rw [if_neg hgate, if_neg hdark, hm]
  simp only [hsat, if_true, if_pos]

/-- Witness for C5: a time-shift-tagged detector hit by blinding-level flux
fires anyway with linear-mode telemetry. -/
theorem c5_saturation_preempts_witness :
    ∃ m, (qmeasure (mkQState ketH) "rectilinear" ((0 : ℚ))).1 = .ok m ∧
      apdDetect ⟨1/4, 10 ^ 7, "timeshift", -1, 0, 0⟩ (mkQState ketH) (10 ^ 9)
          "rectilinear" 0 ⟨1/2, 1, 1, false, 0, 1, 1⟩
        = .ok (some (if (1 : ℚ) < 5/1000 then 1 - m else m),
            ⟨1/4, 10 ^ 7, "timeshift", 0, 9 + (5/100) * 1, 1/10 + (1/100) * 1⟩) :=
  c5_saturation_preempts ⟨1/4, 10 ^ 7, "timeshift", -1, 0, 0⟩ (mkQState ketH)
    (10 ^ 9) "rectilinear" 0 ⟨1/2, 1, 1, false, 0, 1, 1⟩
    (by norm_num [dead_time]) (by norm_num [dark_count_prob])
    (Or.inl rfl) (by norm_num)

/-- C9: an unrecognized measurement basis makes the kernel raise the
unknown-basis ValueError at once, returning no outcome and leaving rho
untouched, and an unrecognized polarization label makes from_label raise the
unknown-label ValueError. -/
theorem c9_kernel_invalid_inputs :
    (∀ basis : String, basis ≠ "rectilinear" → basis ≠ "diagonal" →
        ∀ (rho : Mat2) (u : ℚ),
          qmeasure rho basis u = (Except.error ("Unknown basis " ++ basis), rho)) ∧
    (∀ label : String, label ≠ "H" → label ≠ "V" → label ≠ "D" → label ≠ "A" →
        fromLabel label = Except.error ("Unknown label " ++ label)) := by
  constructor
  · intro basis h1 h2 rho u
    simp [qmeasure, h1, h2]
  · intro label h1 h2 h3 h4
    simp [fromLabel, h1, h2, h3, h4]

/-- Witness for C9 at the concrete invalid basis circular and label X. -/
theorem c9_kernel_invalid_inputs_witness :
    qmeasure ketV "circular" 0 = (Except.error "Unknown basis circular", ketV) ∧
    fromLabel "X" = Except.error "Unknown label X" :=
  ⟨c9_kernel_invalid_inputs.1 "circular" (by decide) (by decide) ketV 0,
   c9_kernel_invalid_inputs.2 "X" (by decide) (by decide) (by decide) (by decide)⟩

/-- Counterexample to C8 as stated: a concrete detect call rejected by the
dead-time gate (last click at 0, probed at 5 microseconds) returns NoEvent
with the detector state exactly equal to the pre-call state — no field,
neither last-fire nor voltage nor jitter, is mutated. -/
theorem c8_counterexample_dead_time_no_mutation :
    apdDetect ⟨1/4, 10 ^ 7, "none", 0, 33/10, 6/5⟩ ketV (1/10)
        "diagonal" (5 / 10 ^ 6) ⟨1, 2, 3, true, 0, 1, 0⟩
      = .ok (none, ⟨1/4, 10 ^ 7, "none", 0, 33/10, 6/5⟩) := by
  unfold apdDetect
  rw [if_pos (by norm_num [dead_time])]

/-- C8 amended: every detect call that passes the dead-time gate overwrites
both telemetry fields — the post-call behaviour is independent of the
incoming voltage and jitter — while a dead-time-rejected call leaves the
state untouched. Stated as: two detectors differing only in their telemetry
fields produce identical results and identical post-states. -/
theorem c8_amended_telemetry_overwritten (s : DetectorState)
    (v1 j1 v2 j2 : ℚ) (rho : Mat2) (flux : ℚ) (basis : String) (t : ℚ)
    (r : DetectRand) (h : ¬ t - s.last_click_time < dead_time) :
    apdDetect { s with current_voltage := v1, current_jitter := j1 }
        rho flux basis t r
      = apdDetect { s with current_voltage := v2, current_jitter := j2 }
          rho flux basis t r := by
  unfold apdDetect
  rw [if_neg h, if_neg h]

/-- Witness for the amended C8: two detectors with different stale telemetry
agree after one dark-count firing. -/
theorem c8_amended_telemetry_overwritten_witness :
    apdDetect ⟨1/4, 10 ^ 7, "none", -1, 5, 5⟩ ketH (1/10) "rectilinear" 0
        ⟨0, 0, 0, true, 0, 1, 0⟩
      = apdDetect ⟨1/4, 10 ^ 7, "none", -1, 7, 7⟩ ketH (1/10) "rectilinear" 0
          ⟨0, 0, 0, true, 0, 1, 0⟩ :=
  c8_amended_telemetry_overwritten ⟨1/4, 10 ^ 7, "none", -1, 0, 0⟩
    5 5 7 7 ketH (1/10) "rectilinear" 0 ⟨0, 0, 0, true, 0, 1, 0⟩
    (by norm_num [dead_time])

/-- Push leaves the capacity unchanged. -/
theorem push_maxlen (b : EventBuffer) (e : Event) :
    (b.push e).maxlen = b.maxlen := rfl

/-- Push keeps the buffer within its capacity. -/
theorem push_len_le (b : EventBuffer) (e : Event) :
    (b.push e).buf.length ≤ b.maxlen := by
  show ((b.buf ++ [e]).drop ((b.buf ++ [e]).length - b.maxlen)).length ≤ b.maxlen
  rw [List.length_drop]
  omega

/-- Dropping down to the last W elements twice is the same as once: keeping
the last W of (last W of l, then l2 appended) is keeping the last W of
l ++ l2. -/
theorem drop_to_last_append (l l2 : List Event) (W : ℕ) :
    ((l.drop (l.length - W)) ++ l2).drop
        ((l.length - (l.length - W)) + l2.length - W)
      = (l ++ l2).drop (l.length + l2.length - W) := by
  have h1 : l.length - W ≤ l.length := Nat.sub_le _ _
  rw [← List.drop_append_of_le_length h1, List.drop_drop]
  have h2 : l.length - W + (l.length - (l.length - W) + l2.length - W)
      = l.length + l2.length - W := by omega
  rw [h2]

/-- Folding pushes over a within-capacity buffer keeps exactly the most
recent maxlen arrivals. -/
theorem pushAll_buf : ∀ (es : List Event) (b : EventBuffer),
    b.buf.length ≤ b.maxlen →
    (b.pushAll es).buf = (b.buf ++ es).drop ((b.buf ++ es).length - b.maxlen)
  | [], b, hb => by
      simp [EventBuffer.pushAll, Nat.sub_eq_zero_of_le hb]
  | e :: es, b, hb => by
      have hstep : b.pushAll (e :: es) = (b.push e).pushAll es := rfl
      rw [hstep, pushAll_buf es (b.push e)
        (by rw [push_maxlen]; exact push_len_le b e)]
      rw [push_maxlen]
      have hpb : (b.push e).buf
          = (b.buf ++ [e]).drop ((b.buf ++ [e]).length - b.maxlen) := rfl
      rw [hpb]
      have hidx : (((b.buf ++ [e]).drop ((b.buf ++ [e]).length - b.maxlen))
            ++ es).length - b.maxlen
          = ((b.buf ++ [e]).length - ((b.buf ++ [e]).length - b.maxlen))
            + es.length - b.maxlen := by
        rw [List.length_append, List.length_drop]
      rw [hidx, drop_to_last_append]
      have hL : (b.buf ++ [e]) ++ es = b.buf ++ e :: es := by
        rw [List.append_assoc, List.singleton_append]
      have hI : (b.buf ++ [e]).length + es.length - b.maxlen
          = (b.buf ++ e :: es).length - b.maxlen := by
        simp only [List.length_append, List.length_cons, List.length_nil]
        omega
      rw [hL, hI]

/-- Folding pushes never changes the capacity. -/
theorem pushAll_maxlen : ∀ (es : List Event) (b : EventBuffer),
    (b.pushAll es).maxlen = b.maxlen
  | [], _ => rfl
  | _ :: es, b => pushAll_maxlen es (b.push _)

/-- C7: pushing any sequence of events into an initially empty ring buffer
of capacity W gives: after exactly W + 1 pushes the buffer holds the last W
arrivals in order (the oldest one dropped); is_ready holds exactly when at
least W events have been pushed — false before, true from then on
permanently; and the fill level never exceeds W. -/
theorem c7_ring_buffer (W : ℕ) (es : List Event) :
    (es.length = W + 1 → ((EventBuffer.init W).pushAll es).buf = es.drop 1) ∧
    (((EventBuffer.init W).pushAll es).is_ready = true ↔ W ≤ es.length) ∧
    ((EventBuffer.init W).pushAll es).fill_level ≤ W := by
  have hbuf := pushAll_buf es (EventBuffer.init W) (by simp [EventBuffer.init])
  have hnil : (EventBuffer.init W).buf ++ es = es := rfl
  have hW : (EventBuffer.init W).maxlen = W := rfl
  rw [hnil, hW] at hbuf
  have hml := pushAll_maxlen es (EventBuffer.init W)
  rw [hW] at hml
  have hlen : ((EventBuffer.init W).pushAll es).buf.length
      = es.length - (es.length - W) := by
    rw [hbuf, List.length_drop]
  refine ⟨?_, ?_, ?_⟩
  · intro h
    rw [hbuf, h]
    have : W + 1 - W = 1 := by omega
    rw [this]
  · unfold EventBuffer.is_ready
    rw [beq_iff_eq, hlen, hml]
    show es.length - (es.length - W) = W ↔ W ≤ es.length
    omega
  · unfold EventBuffer.fill_level
    rw [hlen]
    omega

/-- Witness for C7 with W = 2 and three pushed events: the buffer keeps the
last two in order, is ready, and holds at most two events. -/
theorem c7_ring_buffer_witness :
    ((EventBuffer.init 2).pushAll
        [⟨0, 0, 0, 0, 1, 1⟩, ⟨1, 0, 0, 1, 2, 2⟩, ⟨0, 1, 1, 0, 3, 3⟩]).buf
      = [⟨1, 0, 0, 1, 2, 2⟩, ⟨0, 1, 1, 0, 3, 3⟩] ∧
    ((EventBuffer.init 2).pushAll
        [⟨0, 0, 0, 0, 1, 1⟩, ⟨1, 0, 0, 1, 2, 2⟩, ⟨0, 1, 1, 0, 3, 3⟩]).is_ready
      = true ∧
    ((EventBuffer.init 2).pushAll
        [⟨0, 0, 0, 0, 1, 1⟩, ⟨1, 0, 0, 1, 2, 2⟩, ⟨0, 1, 1, 0, 3, 3⟩]).fill_level
      ≤ 2 :=
  have h := c7_ring_buffer 2
    [⟨0, 0, 0, 0, 1, 1⟩, ⟨1, 0, 0, 1, 2, 2⟩, ⟨0, 1, 1, 0, 3, 3⟩]
  ⟨h.1 rfl, h.2.1.mpr (by norm_num), h.2.2⟩

/-- Value of the overall QBER field of the fingerprint. -/
theorem extractFeatures_qber_overall (events : List Event) :
    (extractFeatures events).qber_overall
      = if 0 < events.countP (fun e => eventMatch e)
        then ((events.countP (fun e => eventError e) : ℚ)
          / (events.countP (fun e => eventMatch e) : ℚ))
        else 0 := rfl

/-- Value of the rectilinear QBER field of the fingerprint. -/
theorem extractFeatures_qber_rectilinear (events : List Event) :
    (extractFeatures events).qber_rectilinear
      = if 0 < events.countP (fun e => eventMatch e && eventRect e)
        then ((events.countP (fun e => eventError e && eventRect e) : ℚ)
          / (events.countP (fun e => eventMatch e && eventRect e) : ℚ))
        else 0 := rfl

/-- Value of the diagonal QBER field of the fingerprint. -/
theorem extractFeatures_qber_diagonal (events : List Event) :
    (extractFeatures events).qber_diagonal
      = if 0 < events.countP (fun e => eventMatch e && eventDiag e)
        then ((events.countP (fun e => eventError e && eventDiag e) : ℚ)
          / (events.countP (fun e => eventMatch e && eventDiag e) : ℚ))
        else 0 := rfl

/-- Value of the photon count rate field of the fingerprint. -/
theorem extractFeatures_count_rate (events : List Event) :
    (extractFeatures events).photon_count_rate
      = (events.countP (fun e => eventMatch e) : ℚ) / (events.length : ℚ) := rfl

/-- Safe-division QBER ratios are bounded in [0, 1] whenever the numerator
count is at most the denominator count. -/
theorem qber_ratio_bounds (a b : ℕ) (hab : a ≤ b) :
    0 ≤ (if 0 < b then (a : ℚ) / (b : ℚ) else 0) ∧
    (if 0 < b then (a : ℚ) / (b : ℚ) else 0) ≤ 1 := by
  split_ifs with h
  · refine ⟨by positivity, ?_⟩
    rw [div_le_one (by exact_mod_cast h)]
    exact_mod_cast hab
  · norm_num

/-- An error-masked event is basis-matched. -/
theorem countP_error_le_match (events : List Event) :
    events.countP (fun e => eventError e)
      ≤ events.countP (fun e => eventMatch e) := by
  refine List.countP_mono_left fun e _ he => ?_
  rw [eventError, Bool.and_eq_true] at he
  exact he.2

/-- An error-masked event of a per-basis subset is basis-matched in the same
subset. -/
theorem countP_error_basis_le_match_basis (events : List Event)
    (basisMask : Event → Bool) :
    events.countP (fun e => eventError e && basisMask e)
      ≤ events.countP (fun e => eventMatch e && basisMask e) := by
  refine List.countP_mono_left fun e _ he => ?_
  rw [Bool.and_eq_true] at he ⊢
  refine ⟨?_, he.2⟩
  have h1 := he.1
  rw [eventError, Bool.and_eq_true] at h1
  exact h1.2

/-- C6: in every extracted fingerprint each of the three QBER values lies in
[0, 1]; whenever a QBER denominator (the sifted count, the
rectilinear-matched count, or the diagonal-matched count) is zero, that QBER
is defined as 0 with no error raised (in this embedding every fingerprint
component is a total rational value, so no undefined or infinite value can
appear). -/
theorem c6_qber_bounds_safe_division (events : List Event) :
    (0 ≤ (extractFeatures events).qber_overall ∧
      (extractFeatures events).qber_overall ≤ 1) ∧
    (0 ≤ (extractFeatures events).qber_rectilinear ∧
      (extractFeatures events).qber_rectilinear ≤ 1) ∧
    (0 ≤ (extractFeatures events).qber_diagonal ∧
      (extractFeatures events).qber_diagonal ≤ 1) ∧
    (events.countP (fun e => eventMatch e) = 0 →
      (extractFeatures events).qber_overall = 0) ∧
    (events.countP (fun e => eventMatch e && eventRect e) = 0 →
      (extractFeatures events).qber_rectilinear = 0) ∧
    (events.countP (fun e => eventMatch e && eventDiag e) = 0 →
      (extractFeatures events).qber_diagonal = 0) := by
  refine ⟨?_, ?_, ?_, ?_, ?_, ?_⟩
  · rw [extractFeatures_qber_overall]
    exact qber_ratio_bounds _ _ (countP_error_le_match events)
  · rw [extractFeatures_qber_rectilinear]
    exact qber_ratio_bounds _ _ (countP_error_basis_le_match_basis events _)
  · rw [extractFeatures_qber_diagonal]
    exact qber_ratio_bounds _ _ (countP_error_basis_le_match_basis events _)
  · intro h
    rw [extractFeatures_qber_overall, h]
    norm_num
  · intro h
    rw [extractFeatures_qber_rectilinear, h]
    norm_num
  · intro h
    rw [extractFeatures_qber_diagonal, h]
    norm_num

/-- Witness for C6 on a concrete window whose three QBER denominators are
all zero: one event with mismatched bases. -/
theorem c6_qber_bounds_safe_division_witness :
    (extractFeatures [⟨0, 0, 1, 1, 5, 2⟩]).qber_overall = 0 ∧
    (extractFeatures [⟨0, 0, 1, 1, 5, 2⟩]).qber_rectilinear = 0 ∧
    (extractFeatures [⟨0, 0, 1, 1, 5, 2⟩]).qber_diagonal = 0 ∧
    0 ≤ (extractFeatures [⟨0, 0, 1, 1, 5, 2⟩]).qber_overall :=
  have h := c6_qber_bounds_safe_division [⟨0, 0, 1, 1, 5, 2⟩]
  ⟨h.2.2.2.1 (by decide), h.2.2.2.2.1 (by decide), h.2.2.2.2.2 (by decide),
   h.1.1⟩

/-- Counterexample to C2: take W = 2, with exactly one simulation tick
elapsed since the last full window, a tick that produced a detected event —
so the fraction of ticks since the last full window that produced an Event
is 1 — while the current full window consists of two basis-mismatched
events, for which the code computes photon_count_rate = n_sifted / n = 0.
The sixth fingerprint component therefore does not equal the tick fraction
the claim describes. -/
theorem c2_counterexample_not_tick_fraction :
    (extractFeatures [⟨0, 0, 1, 0, 3, 1⟩, ⟨1, 0, 1, 1, 3, 1⟩]).photon_count_rate
      = 0 ∧
    specDetectionRate [some ⟨1, 0, 1, 1, 3, 1⟩] = 1 ∧
    (0 : ℚ) ≠ 1 := by
  refine ⟨?_, ?_, by norm_num⟩
  · rw [extractFeatures_count_rate]
    rw [show List.countP (fun e => eventMatch e)
        [⟨0, 0, 1, 0, 3, 1⟩, ⟨1, 0, 1, 1, 3, 1⟩] = 0 from by decide]
    norm_num
  · rw [specDetectionRate]
    rw [show List.countP (fun t => t.isSome)
        [some (⟨1, 0, 1, 1, 3, 1⟩ : Event)] = 1 from by decide]
    norm_num

/-- C2 amended: the sixth fingerprint component is the sifted fraction of
the buffered window — the number of buffered events whose sender and
receiver bases match, divided by the window length — a quantity in [0, 1];
it is not a rate over simulation ticks. -/
theorem c2_amended_sifted_fraction (events : List Event)
    (h : 0 < events.length) :
    (extractFeatures events).photon_count_rate
        = (events.countP (fun e => eventMatch e) : ℚ) / (events.length : ℚ) ∧
    0 ≤ (extractFeatures events).photon_count_rate ∧
    (extractFeatures events).photon_count_rate ≤ 1 := by
  refine ⟨rfl, ?_, ?_⟩
  · rw [extractFeatures_count_rate]
    positivity
  · rw [extractFeatures_count_rate]
    rw [div_le_one (by exact_mod_cast h)]
    exact_mod_cast List.countP_le_length _

/-- Witness for the amended C2 on a one-event window with matching bases. -/
theorem c2_amended_sifted_fraction_witness :
    (extractFeatures [⟨0, 1, 1, 0, 2, 3⟩]).photon_count_rate
        = ((List.countP (fun e => eventMatch e) [⟨0, 1, 1, 0, 2, 3⟩] : ℕ) : ℚ)
          / ((List.length [(⟨0, 1, 1, 0, 2, 3⟩ : Event)] : ℕ) : ℚ) ∧
    0 ≤ (extractFeatures [⟨0, 1, 1, 0, 2, 3⟩]).photon_count_rate ∧
    (extractFeatures [⟨0, 1, 1, 0, 2, 3⟩]).photon_count_rate ≤ 1 :=
  c2_amended_sifted_fraction [⟨0, 1, 1, 0, 2, 3⟩] (by norm_num)

/-- An UNCERTAIN verdict string is never the normal verdict string. -/
theorem uncertain_ne_normal (p : String) :
    "UNCERTAIN (" ++ p ++ ")" ≠ "normal" := by
  intro h
  have hl := congrArg String.length h
  rw [String.length_append, String.length_append] at hl
  have h1 : ("UNCERTAIN (" : String).length = 11 := rfl
  have h2 : (")" : String).length = 1 := rfl
  have h3 : ("normal" : String).length = 6 := rfl
  rw [h1, h2, h3] at hl
  omega

/-- With the trained classifier class list, the top prediction is one of the
four class labels (or the out-of-range default, which argmax never hits on a
matching-length probability vector). -/
theorem rfPred_mem_of_classes (m : ModelOutputs)
    (hcl : m.classes = ["normal", "intercept", "blinding", "timeshift"]) :
    rfPred m = "normal" ∨ rfPred m = "intercept" ∨ rfPred m = "blinding" ∨
    rfPred m = "timeshift" ∨ rfPred m = "" := by
  rw [rfPred, hcl]
  rcases argmaxList m.proba with _ | _ | _ | _ | i <;> simp [List.getD]

/-- C1: with the trained class list, the verdict of the cascade at the 0.70
threshold follows the strict priority order of the source: ZeroDay exactly
when the novelty model is out-of-distribution, the top label is normal and
the confidence is below 0.70; otherwise UNCERTAIN(label) when the confidence
is below 0.70; otherwise the attack label when it is not normal; otherwise
normal. The first conjunct is an equivalence, so ZeroDay occurs under no
other combination of novelty flag, label and confidence. -/
theorem c1_cascade_priority (m : ModelOutputs)
    (hcl : m.classes = ["normal", "intercept", "blinding", "timeshift"]) :
    ((infer (7/10) m).verdict = zeroDayVerdict ↔
      (svmAnomaly m = true ∧ rfPred m = "normal" ∧ rfConf m < 7/10)) ∧
    (¬ (svmAnomaly m = true ∧ rfPred m = "normal" ∧ rfConf m < 7/10) →
      rfConf m < 7/10 →
      (infer (7/10) m).verdict = "UNCERTAIN (" ++ rfPred m ++ ")") ∧
    (¬ rfConf m < 7/10 → rfPred m ≠ "normal" →
      (infer (7/10) m).verdict = rfPred m) ∧
    (¬ rfConf m < 7/10 → rfPred m = "normal" →
      (infer (7/10) m).verdict = "normal") := by
  have hpred := rfPred_mem_of_classes m hcl
  unfold infer
  split_ifs with h1 h2 h3
  · exact ⟨⟨fun _ => h1, fun _ => rfl⟩, fun hn _ => absurd h1 hn,
      fun hc _ => absurd h1.2.2 hc, fun hc _ => absurd h1.2.2 hc⟩
  · refine ⟨⟨fun hv => ?_, fun hcond => absurd hcond h1⟩, fun _ _ => rfl,
      fun hc _ => absurd h2 hc, fun hc _ => absurd h2 hc⟩
    exfalso
    have hv2 : ("UNCERTAIN (" ++ rfPred m ++ ")" : String) = zeroDayVerdict :=
      hv
    rcases hpred with h | h | h | h | h <;> rw [h] at hv2 <;>
      exact absurd hv2 (by decide)
  · refine ⟨⟨fun hv => ?_, fun hcond => absurd hcond h1⟩,
      fun _ hc => absurd hc h2, fun _ _ => rfl, fun _ hp => absurd hp h3⟩
    exfalso
    have hv2 : rfPred m = zeroDayVerdict := hv
    rcases hpred with h | h | h | h | h
    · exact h3 h
    all_goals rw [h] at hv2; exact absurd hv2 (by decide)
  · have hp : rfPred m = "normal" := not_ne_iff.mp h3
    refine ⟨⟨fun hv => ?_, fun hcond => absurd hcond h1⟩,
      fun _ hc => absurd hc h2, fun _ hne => absurd hp hne, fun _ _ => rfl⟩
    exfalso
    have hv2 : ("normal" : String) = zeroDayVerdict := hv
    exact absurd hv2 (by decide)

/-- Witness for C1: an out-of-distribution sample the classifier calls
normal at 50 percent confidence escalates to the zero-day verdict. -/
theorem c1_cascade_priority_witness :
    (infer (7/10)
        ⟨-1, ["normal", "intercept", "blinding", "timeshift"],
          [1/2, 1/4, 1/8, 1/8]⟩).verdict = zeroDayVerdict := by
  refine (c1_cascade_priority
      ⟨-1, ["normal", "intercept", "blinding", "timeshift"],
        [1/2, 1/4, 1/8, 1/8]⟩ rfl).1.mpr ⟨by decide, ?_, ?_⟩
  · rw [rfPred]
    norm_num [argmaxList, argmaxAux, List.getD]
  · rw [rfConf]
    norm_num [listMax, List.foldl, max_def]

/-- C10: the exposed flagged boolean is true exactly when the verdict is not
the normal verdict — in particular an UNCERTAIN verdict is flagged, the same
as attack and zero-day verdicts. -/
theorem c10_flagged_iff_not_normal (t : ℚ) (m : ModelOutputs) :
    (infer t m).flagged = true ↔ (infer t m).verdict ≠ "normal" := by
  unfold infer
  split_ifs with h1 h2 h3
  · exact ⟨fun _ => show zeroDayVerdict ≠ "normal" by decide, fun _ => rfl⟩
  · exact ⟨fun _ => uncertain_ne_normal (rfPred m), fun _ => rfl⟩
  · exact ⟨fun _ => h3, fun _ => rfl⟩
  · simp

end QKD
